import Mathlib

/-!
Shallow embedding of `src/app.py` (lyekai/word_game_v3), a small Flask
backend for an educational word game.  Network calls, the file system and
the clock are modelled as explicit parameters:

* the text endpoint (`requests.post` in `call_gemini_api`) is modelled by a
  function `Nat → AttemptResult` giving the outcome of each attempt;
* the image endpoint (`requests.get` in `call_gemini_image_api`) by a
  single `ImgResponse`;
* the CSV file by an `Option (List (List String))` (`none` = file absent);
* a Python exception escaping a `try` block is modelled by the
  corresponding environment flag (`fileOk`, `writeOk`, `AttemptResult.exn`).

Python string operations are modelled on ASCII data: `str.lower` by
`Char.toLower` mapped over the characters, `str.strip` by dropping
whitespace from both ends of the character list.
-/

/-- Python `s.lower()` (ASCII range), mapped characterwise. -/
def pyLower (s : String) : String := ⟨s.data.map Char.toLower⟩

/-- Python `s.strip()`: drop leading and trailing whitespace. -/
def pyStrip (s : String) : String :=
  ⟨((s.data.dropWhile Char.isWhitespace).reverse.dropWhile Char.isWhitespace).reverse⟩

/-- Python truthiness of a string: non-empty. -/
def pyTruthy (s : String) : Bool := !s.isEmpty

/-- Outcome of one `requests.post` attempt inside `call_gemini_api`:
a 429 status, an exception anywhere in the attempt (network error, timeout,
`raise_for_status` on a non-2xx, malformed JSON body), or a parsed success
whose first candidate's first part has the given optional `text`. -/
inductive AttemptResult
  | rateLimited
  | exn
  | success (text : Option String)
deriving DecidableEq

/-- Result of `call_gemini_api`: the returned string, the sequence of
`time.sleep` durations performed, and the number of network calls issued. -/
structure ApiOutcome where
  result : String
  waits : List Nat
  calls : Nat
deriving DecidableEq

/-- Python truthiness of `API_KEY` (`if not API_KEY`): configured means
present and non-empty. -/
def keyConfigured : Option String → Bool
  | none => false
  | some s => !s.isEmpty

/-- `"回饋失敗：AI 服務未配置 (API Key 缺失)。"` (line 24). -/
def noKeyMsg : String := "回饋失敗：AI 服務未配置 (API Key 缺失)。"

/-- `"回饋失敗：內容生成空值。"` (line 46). -/
def emptyContentMsg : String := "回饋失敗：內容生成空值。"

/-- `"回饋失敗：AI 老師連線異常，請稍後再試。"` (line 49). -/
def connectionErrorMsg : String := "回饋失敗：AI 老師連線異常，請稍後再試。"

/-- `"回饋失敗。"` (line 51), returned after the `for` loop is exhausted. -/
def genericFailMsg : String := "回饋失敗。"

/-- `max_retries = 3` (line 34). -/
def max_retries : Nat := 3

/-- The `for attempt in range(max_retries)` loop of `call_gemini_api`
(lines 35-50).  `attempt` is the current index, `fuel` the number of loop
iterations left (invariant: `fuel = max_retries - attempt`), and
`waits`/`calls` accumulate the sleeps performed and the requests issued so
far.  Falling out of the loop returns the generic failure string. -/
def geminiLoop (responses : Nat → AttemptResult) :
    Nat → Nat → List Nat → Nat → ApiOutcome
  | _, 0, waits, calls => ⟨genericFailMsg, waits, calls⟩
  | attempt, fuel + 1, waits, calls =>
    match responses attempt with
    | .rateLimited =>
        -- wait_time = (attempt + 1) * 2; time.sleep(wait_time); continue
        geminiLoop responses (attempt + 1) fuel (waits ++ [(attempt + 1) * 2]) (calls + 1)
    | .exn =>
        if attempt = max_retries - 1 then
          ⟨connectionErrorMsg, waits, calls + 1⟩
        else
          geminiLoop responses (attempt + 1) fuel (waits ++ [1]) (calls + 1)
    | .success t =>
        match t with
        | some s => if pyTruthy s then ⟨pyStrip s, waits, calls + 1⟩
                    else ⟨emptyContentMsg, waits, calls + 1⟩
        | none => ⟨emptyContentMsg, waits, calls + 1⟩

/-- `call_gemini_api(prompt, system_instruction)` (lines 21-51).  The
prompt and instruction are carried for fidelity; the environment
(`responses`) determines each attempt's outcome. -/
def call_gemini_api (apiKey : Option String) (responses : Nat → AttemptResult)
    (prompt system_instruction : String) : ApiOutcome :=
  if !keyConfigured apiKey then ⟨noKeyMsg, [], 0⟩
  else
    let _ := prompt
    let _ := system_instruction
    geminiLoop responses 0 max_retries [] 0

example : (call_gemini_api (some "k") (fun _ => .rateLimited) "p" "s").waits
    = [2, 4, 6] := by decide
example : (call_gemini_api (some "k") (fun _ => .exn) "p" "s")
    = ⟨connectionErrorMsg, [1, 1], 3⟩ := by decide

/-! ## Image client (`call_gemini_image_api`, lines 53-67) -/

/-- Outcome of the single `requests.get` in `call_gemini_image_api`: an
exception, or a response with a status code and a body (a list of bytes). -/
inductive ImgResponse
  | exn
  | resp (status : Nat) (body : List Nat)
deriving DecidableEq

/-- The standard base64 alphabet, used by `base64.b64encode`. -/
def base64Table : List Char :=
  "ABCDEFGHIJKLMNOPQRSTUVWXYZabcdefghijklmnopqrstuvwxyz0123456789+/".data

/-- The base64 digit for a 6-bit value. -/
def b64Digit (n : Nat) : Char := base64Table.getD n 'A'

/-- Base64-encode a byte list, three bytes to four characters, padding
with `=`. Models `base64.b64encode(...).decode('utf-8')`. -/
def base64Chars : List Nat → List Char
  | [] => []
  | [b1] => [b64Digit (b1 / 4), b64Digit (b1 % 4 * 16), '=', '=']
  | [b1, b2] => [b64Digit (b1 / 4), b64Digit (b1 % 4 * 16 + b2 / 16),
                 b64Digit (b2 % 16 * 4), '=']
  | b1 :: b2 :: b3 :: rest =>
      b64Digit (b1 / 4) :: b64Digit (b1 % 4 * 16 + b2 / 16)
        :: b64Digit (b2 % 16 * 4 + b3 / 64) :: b64Digit (b3 % 64)
        :: base64Chars rest

/-- `base64.b64encode(response.content).decode('utf-8')` as a string. -/
def base64Encode (bytes : List Nat) : String := ⟨base64Chars bytes⟩

/-- `call_gemini_image_api(user_sentence)` (lines 53-67), returning the
optional encoded body together with the number of GET requests issued.
`if not user_sentence` is Python string truthiness (empty = falsy); the
`try` catches any exception and falls through to `return None`. -/
def call_gemini_image_api (user_sentence : String) (response : ImgResponse) :
    Option String × Nat :=
  if user_sentence.isEmpty then (none, 0)
  else
    match response with
    | .exn => (none, 1)
    | .resp status body =>
        if status = 200 ∧ body ≠ [] then (some (base64Encode body), 1)
        else (none, 1)

example : call_gemini_image_api "" .exn = (none, 0) := by decide
example : call_gemini_image_api "cat" (.resp 200 [77, 97, 110]) = (some "TWFu", 1) := by
  decide
example : call_gemini_image_api "cat" (.resp 404 [77]) = (none, 1) := by decide

/-! ## Word classification (`get_ai_feedback`, lines 164-166) -/

/-- `[w for w in selected_cards if w.lower() in standard_answers]`. -/
def correct_selected (selected answers : List String) : List String :=
  selected.filter (fun w => decide (pyLower w ∈ answers))

/-- `[w for w in selected_cards if w.lower() not in standard_answers]`. -/
def wrong_selected (selected answers : List String) : List String :=
  selected.filter (fun w => !decide (pyLower w ∈ answers))

/-- `[w for w in standard_answers if w.lower() not in [x.lower() for x in selected_cards]]`. -/
def missing_words (selected answers : List String) : List String :=
  answers.filter (fun w => !decide (pyLower w ∈ selected.map pyLower))

example : correct_selected ["Apple", "Dog"] ["apple", "tree"] = ["Apple"] := by decide
example : wrong_selected ["Apple", "Dog"] ["apple", "tree"] = ["Dog"] := by decide
example : missing_words ["Apple", "Dog"] ["apple", "tree"] = ["tree"] := by decide

/-! ## Newline-before-marker post-processing (line 123) -/

/-- Python `s.replace("1. ", "\n1. ")` on the character list: every
left-to-right non-overlapping occurrence of `"1. "` gets a newline
inserted in front of it (the replacement text is not rescanned). -/
def insertNewlineBefore1 : List Char → List Char
  | [] => []
  | '1' :: '.' :: ' ' :: rest => '\n' :: '1' :: '.' :: ' ' :: insertNewlineBefore1 rest
  | c :: rest => c :: insertNewlineBefore1 rest

/-- `ai_critique.replace("1. ", "\n1. ")` (line 123). -/
def replaceMarker (s : String) : String := ⟨insertNewlineBefore1 s.data⟩

/-- Whether the marker `"1. "` occurs somewhere in the list. -/
def hasMarker : List Char → Bool
  | '1' :: '.' :: ' ' :: _ => true
  | _ :: rest => hasMarker rest
  | [] => false

/-- Number of positions at which the marker `"1. "` starts. -/
def numMarkers : List Char → Nat
  | '1' :: '.' :: ' ' :: rest => numMarkers rest + 1
  | _ :: rest => numMarkers rest
  | [] => 0

/-- Whether some occurrence of the marker `"1. "` is NOT immediately
preceded by a newline character (including an occurrence at the very
start of the list). -/
def hasBareMarker : List Char → Bool
  | '1' :: '.' :: ' ' :: _ => true
  | '\n' :: '1' :: '.' :: ' ' :: rest => hasBareMarker rest
  | _ :: rest => hasBareMarker rest
  | [] => false

example : replaceMarker "ok 1. hint" = "ok \n1. hint" := by decide
example : replaceMarker "\n1. a" = "\n\n1. a" := by decide

/-! ## Interaction logger (`save_to_csv`, lines 70-86) -/

/-- The CSV column order (lines 73-76). -/
def fieldnames : List String :=
  ["timestamp", "level", "feedback_round", "selected_words",
   "user_sentence", "ai_feedback", "word_stars", "sentence_stars", "total_stars"]

/-- One `log_data` dictionary as the handlers build it. -/
structure InteractionRecord where
  timestamp : String
  level : Int
  feedback_round : String
  selected_words : String
  user_sentence : String
  ai_feedback : String
  word_stars : Int
  sentence_stars : Int
  total_stars : Int
deriving DecidableEq

/-- The row `csv.DictWriter.writerow` emits for a record: the values in
`fieldnames` order, numbers stringified. -/
def recCells (r : InteractionRecord) : List String :=
  [r.timestamp, toString r.level, r.feedback_round, r.selected_words,
   r.user_sentence, r.ai_feedback, toString r.word_stars,
   toString r.sentence_stars, toString r.total_stars]

/-- `save_to_csv(data_dict)` (lines 70-86).  The store is `none` when
`record.csv` does not exist, `some rows` otherwise; `writeOk = false`
models any exception inside the `try` (the write is lost and the error is
printed).  Returns the new store and whether the diagnostic message was
printed. -/
def save_to_csv (writeOk : Bool) (store : Option (List (List String)))
    (rec : InteractionRecord) : Option (List (List String)) × Bool :=
  -- file_exists = os.path.isfile(file_path)
  let file_exists := store.isSome
  if writeOk then
    let lines := store.getD []
    -- if not file_exists: writer.writeheader()
    let lines := if !file_exists then lines ++ [fieldnames] else lines
    (some (lines ++ [recCells rec]), false)
  else
    (store, true)

/-! ## Feedback assembler (`get_sentence_analysis`, lines 89-127) -/

/-- `feedback.replace('\n', ' ')` (line 179). -/
def flattenNewlines (s : String) : String :=
  ⟨s.data.map (fun c => if c = '\n' then ' ' else c)⟩

/-- `get_sentence_analysis(...)` (lines 89-127): builds the instruction
and prompt, calls `call_gemini_api`, and inserts a newline before the
`"1. "` marker.  (`status_msg` is computed by the source but unused in the
returned text, line 126.) -/
def get_sentence_analysis (user_sentence : String)
    (correct_selected wrong_selected missing_words target_answers : List String)
    (sentence_prompt : String) (apiKey : Option String)
    (responses : Nat → AttemptResult) : String :=
  let system_instruction :=
    "你是一位國中一年級英文老師。請根據『原始圖片包含的正確單字』進行回饋。"
      ++ "1. 禁止使用任何 Markdown 符號（如 ** 或 __）。"
      ++ "2. 單字提示：請針對『學生遺漏的所有正確單字』逐一提供外觀、特徵或位置線索，不准說出英文單字本身。"
      ++ "3. 畫面引導：必須嚴格參考『原始圖片正確單字』。每次建議增加一個簡單細節。"
  let prompt :=
    "【事實參考】\n"
      ++ "圖片中真實存在的正確單字: " ++ String.intercalate ", " target_answers ++ "\n"
      ++ "學生選中的正確單字: " ++ String.intercalate ", " correct_selected ++ "\n"
      ++ "學生選錯的單字: " ++ String.intercalate ", " wrong_selected
      ++ "學生遺漏的單字: " ++ String.intercalate ", " missing_words
      ++ "學生目前造句: 『" ++ user_sentence ++ "』\n"
      ++ "要求句型: 『" ++ sentence_prompt ++ "』\n\n"
      ++ "請務必依照以下編號順序回報，以下三個段落每段之間換一行即可："
      ++ "1. 單字提示：針對遺漏單字提供線索"
      ++ "2. 文法修正：檢查句子文法與單字拼法"
      ++ "3. 畫面引導建議：如何讓句子更接近圖片內容"
  let ai_critique := (call_gemini_api apiKey responses prompt system_instruction).result
  let ai_critique := replaceMarker ai_critique
  ai_critique

/-! ## Request handlers (lines 143-216) -/

/-- The decoded JSON body of a `POST /api/ai_feedback` request after the
`data.get(...)` / `int(...)` lookups succeed. -/
structure FeedbackRequest where
  level : Int
  user_sentence : String
  sentence_prompt : String
  correct_words : List String
  feedback_count : Int
  word_stars : Int
  sentence_stars : Int
deriving DecidableEq

/-- One entry of `static/data/easy_mode.json`. -/
structure LevelDef where
  level : Int
  answer : List String
deriving DecidableEq

/-- `next((item for item in full_data if item["level"] == int(level_idx)), None)`
followed by `[a.lower() for a in ...["answer"]] if ... else []`
(lines 161-162). -/
def standardAnswers (levels : List LevelDef) (level_idx : Int) : List String :=
  match levels.find? (fun item => decide (item.level = level_idx)) with
  | some d => d.answer.map pyLower
  | none => []

/-- Result of serving `POST /api/ai_feedback`: HTTP status, the `feedback`
JSON field, the record handed to `save_to_csv` (if reached), and the
resulting CSV store. -/
structure FeedbackResult where
  status : Nat
  feedback : String
  logged : Option InteractionRecord
  store : Option (List (List String))
deriving DecidableEq

/-- `"伺服器處理錯誤。"` (line 188). -/
def serverErrorMsg : String := "伺服器處理錯誤。"

/-- `get_ai_feedback()` (lines 143-188).  `raw = none` models a body on
which `request.get_json()` / the key lookups raise (bad JSON);
`fileOk = false` models `open('static/data/easy_mode.json')` or
`json.load` raising; both are caught by the handler's `except` and turned
into a 500 with a generic message.  `levels` is the decoded level file,
`now` the formatted current time. -/
def get_ai_feedback (raw : Option FeedbackRequest) (fileOk : Bool)
    (levels : List LevelDef) (apiKey : Option String)
    (responses : Nat → AttemptResult) (writeOk : Bool)
    (store : Option (List (List String))) (now : String) : FeedbackResult :=
  match raw, fileOk with
  | none, _ => ⟨500, serverErrorMsg, none, store⟩
  | some _, false => ⟨500, serverErrorMsg, none, store⟩
  | some data, true =>
    let level_idx := data.level
    let user_sentence := pyStrip data.user_sentence
    let sentence_prompt := pyStrip data.sentence_prompt
    let selected_cards := data.correct_words
    let round_index := data.feedback_count
    let word_stars := data.word_stars
    let sentence_stars := data.sentence_stars
    let total_stars := word_stars + sentence_stars
    let standard_answers := standardAnswers levels level_idx
    let correct_sel := correct_selected selected_cards standard_answers
    let wrong_sel := wrong_selected selected_cards standard_answers
    let missing := missing_words selected_cards standard_answers
    let feedback := get_sentence_analysis user_sentence correct_sel wrong_sel
      missing standard_answers sentence_prompt apiKey responses
    let log_rec : InteractionRecord :=
      { timestamp := now
        level := level_idx
        feedback_round := "第" ++ toString (round_index + 1) ++ "次回饋"
        selected_words := String.intercalate "," selected_cards
        user_sentence := user_sentence
        ai_feedback := flattenNewlines feedback
        word_stars := word_stars
        sentence_stars := sentence_stars
        total_stars := total_stars }
    let saved := save_to_csv writeOk store log_rec
    ⟨200, feedback, some log_rec, saved.1⟩

/-- The decoded JSON body of a `POST /api/generate_image` request. -/
structure ImageRequest where
  user_sentence : String
  level : Int
  correct_words : List String
  word_stars : Int
  sentence_stars : Int
deriving DecidableEq

/-- Result of serving `POST /api/generate_image`: HTTP status, the
`image_data` field, the `error` field, the record handed to
`save_to_csv` (if reached), and the resulting CSV store. -/
structure ImageResult where
  status : Nat
  image_data : Option String
  error : Option String
  logged : Option InteractionRecord
  store : Option (List (List String))
deriving DecidableEq

/-- `generate_image()` (lines 190-216).  `raw = none` models a request on
which the JSON decoding raises; the handler's `except` turns it into a 500
whose `error` field is the stringified exception (modelled by the fixed
placeholder `"exception"`). -/
def generate_image (raw : Option ImageRequest) (imgResponse : ImgResponse)
    (writeOk : Bool) (store : Option (List (List String))) (now : String) :
    ImageResult :=
  match raw with
  | none => ⟨500, none, some "exception", none, store⟩
  | some data =>
    let word_stars := data.word_stars
    let sentence_stars := data.sentence_stars
    let image_b64 := (call_gemini_image_api data.user_sentence imgResponse).1
    -- if not image_b64: Python truthiness (None or empty string)
    let ok := match image_b64 with
      | none => false
      | some s => pyTruthy s
    if ok = false then ⟨500, none, some "圖片生成失敗", none, store⟩
    else
      let log_rec : InteractionRecord :=
        { timestamp := now
          level := data.level
          feedback_round := "生成圖片階段"
          selected_words := String.intercalate "," data.correct_words
          user_sentence := data.user_sentence
          ai_feedback := "N/A"
          word_stars := word_stars
          sentence_stars := sentence_stars
          total_stars := word_stars + sentence_stars }
      let saved := save_to_csv writeOk store log_rec
      ⟨200, image_b64, none, some log_rec, saved.1⟩

/-! ## Helper lemmas about the marker replacement -/

/-- The output of the replacement starts with `c` only if the input did or
`c` is the inserted newline. -/
theorem insert_head (r : List Char) (c : Char) (t : List Char)
    (h : insertNewlineBefore1 r = c :: t) : c = '\n' ∨ ∃ t2, r = c :: t2 := by
  induction r using insertNewlineBefore1.induct with
  | case1 => simp [insertNewlineBefore1] at h
  | case2 rest ih =>
      simp only [insertNewlineBefore1] at h
      injection h with h1 h2
      exact Or.inl h1.symm
  | case3 d rest hne ih =>
      simp only [insertNewlineBefore1] at h
      injection h with h1 h2
      exact Or.inr ⟨rest, by rw [h1]⟩

theorem insert_dot_space (r : List Char) (t : List Char)
    (h : insertNewlineBefore1 r = '.' :: ' ' :: t) : ∃ t2, r = '.' :: ' ' :: t2 := by
  rcases insert_head r '.' (' ' :: t) h with h1 | ⟨r2, rfl⟩
  · simp at h1
  · have h2 : insertNewlineBefore1 ('.' :: r2) = '.' :: insertNewlineBefore1 r2 := by
      simp [insertNewlineBefore1]
    rw [h2] at h
    have h3 : insertNewlineBefore1 r2 = ' ' :: t := by simpa using h
    rcases insert_head r2 ' ' t h3 with h4 | ⟨r3, rfl⟩
    · simp at h4
    · exact ⟨r3, rfl⟩

theorem insert_no_marker_head (r : List Char) (t : List Char) :
    insertNewlineBefore1 r ≠ '1' :: '.' :: ' ' :: t := by
  intro h
  rcases insert_head r '1' ('.' :: ' ' :: t) h with h1 | ⟨r2, rfl⟩
  · simp at h1
  · by_cases hm : ∃ r3, r2 = '.' :: ' ' :: r3
    · obtain ⟨r3, rfl⟩ := hm
      simp [insertNewlineBefore1] at h
    · have hside : ∀ (r3 : List Char), ('1' : Char) = '1' → r2 = '.' :: ' ' :: r3 → False :=
        fun r3 _ hr => hm ⟨r3, hr⟩
      have h2 : insertNewlineBefore1 ('1' :: r2) = '1' :: insertNewlineBefore1 r2 := by
        simp only [insertNewlineBefore1]
      rw [h2] at h
      have h3 : insertNewlineBefore1 r2 = '.' :: ' ' :: t := by simpa using h
      obtain ⟨r3, rfl⟩ := insert_dot_space r2 t h3
      exact hm ⟨r3, rfl⟩

theorem insert_of_no_marker (l : List Char) (h : hasMarker l = false) :
    insertNewlineBefore1 l = l := by
  induction l using insertNewlineBefore1.induct with
  | case1 => rfl
  | case2 rest ih => simp [hasMarker] at h
  | case3 c rest hne ih =>
      have h2 : hasMarker rest = false := by
        simp only [hasMarker] at h
        exact h
      simp only [insertNewlineBefore1]
      rw [ih h2]

theorem insert_length (l : List Char) :
    (insertNewlineBefore1 l).length = l.length + numMarkers l := by
  induction l using insertNewlineBefore1.induct with
  | case1 => rfl
  | case2 rest ih =>
      simp only [insertNewlineBefore1, numMarkers, List.length_cons, ih]
      omega
  | case3 c rest hne ih =>
      simp only [insertNewlineBefore1, numMarkers, List.length_cons, ih]
      omega

theorem hasMarker_insert (l : List Char) (h : hasMarker l = true) :
    hasMarker (insertNewlineBefore1 l) = true := by
  induction l using insertNewlineBefore1.induct with
  | case1 => simp [hasMarker] at h
  | case2 rest ih => simp [insertNewlineBefore1, hasMarker]
  | case3 c rest hne ih =>
      have h2 : hasMarker rest = true := by
        simp only [hasMarker] at h
        exact h
      have h3 := ih h2
      simp only [insertNewlineBefore1]
      rcases hr : insertNewlineBefore1 rest with _ | ⟨d, t⟩
      · rw [hr] at h3; simp [hasMarker] at h3
      · rw [hr] at h3
        by_cases hcm : ∃ t2, d :: t = '.' :: ' ' :: t2 ∧ c = '1'
        · obtain ⟨t2, he, rfl⟩ := hcm
          rw [he]
          simp [hasMarker]
        · have hside : ∀ (r3 : List Char), c = '1' → d :: t = '.' :: ' ' :: r3 → False :=
            fun r3 hc hr2 => hcm ⟨r3, hr2, hc⟩
          simp only [hasMarker]
          exact h3

theorem numMarkers_pos (l : List Char) (h : hasMarker l = true) :
    1 ≤ numMarkers l := by
  induction l using insertNewlineBefore1.induct with
  | case1 => simp [hasMarker] at h
  | case2 rest ih => simp [numMarkers]
  | case3 c rest hne ih =>
      have h2 : hasMarker rest = true := by
        simp only [hasMarker] at h
        exact h
      have := ih h2
      simp only [numMarkers]
      omega

theorem bare_insert (l : List Char) :
    hasBareMarker (insertNewlineBefore1 l) = false := by
  induction l using insertNewlineBefore1.induct with
  | case1 => rfl
  | case2 rest ih =>
      simp only [insertNewlineBefore1]
      simp only [hasBareMarker]
      exact ih
  | case3 c rest hne ih =>
      simp only [insertNewlineBefore1]
      have hs1 : ∀ (tail : List Char), c = '1' →
          insertNewlineBefore1 rest = '.' :: ' ' :: tail → False := by
        intro tail hc hr
        obtain ⟨r3, rfl⟩ := insert_dot_space rest tail hr
        exact hne r3 hc rfl
      have hs2 : ∀ (t2 : List Char), c = '\n' →
          insertNewlineBefore1 rest = '1' :: '.' :: ' ' :: t2 → False := by
        intro t2 _ hr
        exact insert_no_marker_head rest t2 hr
      simp only [hasBareMarker]
      exact ih

theorem insert_fix_iff (l : List Char) :
    insertNewlineBefore1 l = l ↔ hasMarker l = false := by
  constructor
  · intro h
    by_contra hm
    have hm2 : hasMarker l = true := by
      cases hh : hasMarker l
      · exact absurd hh hm
      · rfl
    have hlen := insert_length l
    rw [h] at hlen
    have := numMarkers_pos l hm2
    omega
  · exact insert_of_no_marker l

theorem insert_idem_iff (l : List Char) :
    insertNewlineBefore1 (insertNewlineBefore1 l) = insertNewlineBefore1 l
      ↔ hasMarker l = false := by
  constructor
  · intro h
    by_contra hm
    have hm2 : hasMarker l = true := by
      cases hh : hasMarker l
      · exact absurd hh hm
      · rfl
    have hm3 := hasMarker_insert l hm2
    have hlen := insert_length (insertNewlineBefore1 l)
    rw [h] at hlen
    have := numMarkers_pos _ hm3
    omega
  · intro h
    have h2 := insert_of_no_marker l h
    rw [h2]
    exact h2

/-! ## Claims -/

/-- C1: `correct_selected(S,A)` is exactly the words of `S` whose lowercase
form is in `A`; `wrong_selected(S,A)` exactly those whose lowercase form is
not in `A`; `missing_words(S,A)` exactly the words of `A` whose lowercase
form does not occur among the lowercased words of `S`.  With `A` stored
lowercase, `correct_selected ++ wrong_selected` is a permutation of `S`
(each element of `S` covered exactly once), and every element of `A` lies
in exactly one of the case-folded `correct_selected` and `missing_words`. -/
theorem claim_C1 (S A : List String) (hA : ∀ a ∈ A, pyLower a = a) :
    (∀ w, w ∈ correct_selected S A ↔ w ∈ S ∧ pyLower w ∈ A)
    ∧ (∀ w, w ∈ wrong_selected S A ↔ w ∈ S ∧ pyLower w ∉ A)
    ∧ (∀ w, w ∈ missing_words S A ↔ w ∈ A ∧ pyLower w ∉ S.map pyLower)
    ∧ List.Perm (correct_selected S A ++ wrong_selected S A) S
    ∧ (∀ a, a ∈ A ↔ (a ∈ (correct_selected S A).map pyLower ∨ a ∈ missing_words S A))
    ∧ (∀ a, ¬(a ∈ (correct_selected S A).map pyLower ∧ a ∈ missing_words S A)) := by
  refine ⟨?_, ?_, ?_, ?_, ?_, ?_⟩
  · intro w
    simp [correct_selected, List.mem_filter]
  · intro w
    simp [wrong_selected, List.mem_filter]
  · intro w
    simp [missing_words, List.mem_filter]
  · exact List.filter_append_perm _ S
  · intro a
    constructor
    · intro ha
      by_cases hmem : pyLower a ∈ S.map pyLower
      · left
        rw [hA a ha] at hmem
        obtain ⟨w, hwS, hweq⟩ := List.mem_map.mp hmem
        have hw : w ∈ correct_selected S A := by
          simp only [correct_selected, List.mem_filter, decide_eq_true_eq]
          exact ⟨hwS, by rw [hweq]; exact ha⟩
        exact List.mem_map.mpr ⟨w, hw, hweq⟩
      · right
        simp only [missing_words, List.mem_filter]
        exact ⟨ha, by simp [hmem]⟩
    · intro h
      rcases h with h | h
      · obtain ⟨w, hw, hweq⟩ := List.mem_map.mp h
        have hw2 := List.mem_filter.mp hw
        simp only [decide_eq_true_eq] at hw2
        rw [← hweq]
        exact hw2.2
      · exact (List.mem_filter.mp h).1
  · intro a h
    obtain ⟨h1, h2⟩ := h
    obtain ⟨w, hw, hweq⟩ := List.mem_map.mp h1
    have hwS : w ∈ S := (List.mem_filter.mp hw).1
    have hmm := List.mem_filter.mp h2
    have haA : a ∈ A := hmm.1
    have hnot : pyLower a ∉ S.map pyLower := by simpa using hmm.2
    rw [hA a haA] at hnot
    exact hnot (List.mem_map.mpr ⟨w, hwS, hweq⟩)

/-- C1 witness: the spec's own example, level answers `{"apple","tree"}`,
learner selects `["Apple","Dog"]`. -/
theorem claim_C1_witness :
    (∀ a ∈ ["apple", "tree"], pyLower a = a)
    ∧ List.Perm
        (correct_selected ["Apple", "Dog"] ["apple", "tree"]
          ++ wrong_selected ["Apple", "Dog"] ["apple", "tree"])
        ["Apple", "Dog"] :=
  ⟨by decide,
   (claim_C1 ["Apple", "Dog"] ["apple", "tree"] (by decide)).2.2.2.1⟩

/-- C2 (amended): if every attempt is rate-limited (HTTP 429) and a key is
configured, the client makes exactly 3 attempts, sleeps
`(attempt_index+1)*2` after each 429 — i.e. 2, 4, and then 6 time-units,
the last sleep occurring after the final attempt even though no further
attempt follows — and then returns the generic failure string (the model
is a total function, so no exception is raised). -/
theorem claim_C2 (apiKey : Option String) (responses : Nat → AttemptResult)
    (prompt instr : String) (hk : keyConfigured apiKey = true)
    (hr : ∀ i, i < max_retries → responses i = AttemptResult.rateLimited) :
    call_gemini_api apiKey responses prompt instr = ⟨genericFailMsg, [2, 4, 6], 3⟩ := by
  have h0 := hr 0 (by decide)
  have h1 := hr 1 (by decide)
  have h2 := hr 2 (by decide)
  simp [call_gemini_api, hk, geminiLoop, max_retries, h0, h1, h2]

/-- C2 witness: three consecutive 429 responses with a configured key. -/
theorem claim_C2_witness :
    keyConfigured (some "k") = true
    ∧ call_gemini_api (some "k") (fun _ => AttemptResult.rateLimited) "p" "s"
        = ⟨genericFailMsg, [2, 4, 6], 3⟩ :=
  ⟨by decide,
   claim_C2 (some "k") (fun _ => AttemptResult.rateLimited) "p" "s" (by decide)
     (fun _ _ => rfl)⟩

/-- C2 counterexample: with three consecutive 429 responses the client
sleeps 2, 4 and then 6 time-units — not "2 then 4 and nothing more" as the
claim states: a third sleep of 6 happens after the final attempt. -/
theorem claim_C2_counterexample :
    (call_gemini_api (some "k") (fun _ => AttemptResult.rateLimited) "p" "s").waits
      = [2, 4, 6]
    ∧ [2, 4, 6] ≠ ([2, 4] : List Nat) :=
  ⟨by decide, by decide⟩

/-- C3: if every attempt raises a non-rate-limit exception, the client
sleeps a flat 1 time-unit after each non-final attempt (waits `[1, 1]`),
makes all 3 attempts, and returns the fixed "connection problem" string on
the final attempt; the model is total, so nothing propagates. -/
theorem claim_C3 (apiKey : Option String) (responses : Nat → AttemptResult)
    (prompt instr : String) (hk : keyConfigured apiKey = true)
    (hr : ∀ i, i < max_retries → responses i = AttemptResult.exn) :
    call_gemini_api apiKey responses prompt instr = ⟨connectionErrorMsg, [1, 1], 3⟩ := by
  have h0 := hr 0 (by decide)
  have h1 := hr 1 (by decide)
  have h2 := hr 2 (by decide)
  simp [call_gemini_api, hk, geminiLoop, max_retries, h0, h1, h2]

/-- C3 witness: a network exception on every attempt. -/
theorem claim_C3_witness :
    keyConfigured (some "k") = true
    ∧ call_gemini_api (some "k") (fun _ => AttemptResult.exn) "p" "s"
        = ⟨connectionErrorMsg, [1, 1], 3⟩ :=
  ⟨by decide,
   claim_C3 (some "k") (fun _ => AttemptResult.exn) "p" "s" (by decide)
     (fun _ _ => rfl)⟩

/-- C6: with no credential configured (absent or empty), the client
returns the fixed "service unavailable" message immediately, with zero
network calls and zero sleeps, whatever the prompt and instruction. -/
theorem claim_C6 (apiKey : Option String) (responses : Nat → AttemptResult)
    (prompt instr : String) (hk : keyConfigured apiKey = false) :
    call_gemini_api apiKey responses prompt instr = ⟨noKeyMsg, [], 0⟩ := by
  simp [call_gemini_api, hk]

/-- C6 witness: the credential is absent. -/
theorem claim_C6_witness :
    keyConfigured none = false
    ∧ call_gemini_api none (fun _ => AttemptResult.exn) "p" "s" = ⟨noKeyMsg, [], 0⟩ :=
  ⟨rfl, claim_C6 none (fun _ => AttemptResult.exn) "p" "s" rfl⟩

/-- C7: the image client issues zero GETs and returns absent on an empty
sentence; otherwise it issues exactly one GET (no retry), returns the
base64-encoded body exactly when the status is 200 and the body non-empty,
and returns absent on any other status, an empty body, or an exception. -/
theorem claim_C7 (s : String) (resp : ImgResponse) :
    (s.isEmpty = true → call_gemini_image_api s resp = (none, 0))
    ∧ (s.isEmpty = false → (call_gemini_image_api s resp).2 = 1)
    ∧ (s.isEmpty = false → resp = ImgResponse.exn →
        (call_gemini_image_api s resp).1 = none)
    ∧ (∀ status body, s.isEmpty = false → resp = ImgResponse.resp status body →
        ((status = 200 ∧ body ≠ []) →
          (call_gemini_image_api s resp).1 = some (base64Encode body))
        ∧ (¬(status = 200 ∧ body ≠ []) →
          (call_gemini_image_api s resp).1 = none)) := by
  refine ⟨?_, ?_, ?_, ?_⟩
  · intro h
    simp [call_gemini_image_api, h]
  · intro h
    cases resp with
    | exn => simp [call_gemini_image_api, h]
    | resp st body =>
        simp only [call_gemini_image_api, h, Bool.false_eq_true, if_false]
        split <;> rfl
  · intro h he
    subst he
    simp [call_gemini_image_api, h]
  · intro status body h he
    subst he
    constructor
    · intro hc
      simp [call_gemini_image_api, h, hc]
    · intro hc
      simp [call_gemini_image_api, h, hc]

/-- C7 witness: the empty sentence yields absent with zero GETs. -/
theorem claim_C7_witness :
    call_gemini_image_api "" ImgResponse.exn = (none, 0) :=
  (claim_C7 "" ImgResponse.exn).1 rfl

/-- C8 (amended): the post-processing inserts a line break immediately
before every occurrence of the literal marker `"1. "` (no occurrence in
the output lacks a preceding newline); it is a no-op — and hence
idempotent — exactly when the marker does not occur in the text; whenever
the marker occurs (even exactly once and not already preceded by a
newline) reapplying it inserts a further newline, and repeated markers
trigger one insertion per occurrence. -/
theorem claim_C8 (s : String) :
    hasBareMarker (replaceMarker s).data = false
    ∧ (replaceMarker s = s ↔ hasMarker s.data = false)
    ∧ (replaceMarker (replaceMarker s) = replaceMarker s ↔ hasMarker s.data = false) := by
  refine ⟨?_, ?_, ?_⟩
  · exact bare_insert s.data
  · rw [String.ext_iff]
    exact insert_fix_iff s.data
  · rw [String.ext_iff]
    exact insert_idem_iff s.data

/-- C8 counterexample: on `"1. hi"` the marker appears exactly once and is
not preceded by a newline, yet the post-processing is not idempotent
there: reapplying it inserts a second newline. -/
theorem claim_C8_counterexample :
    numMarkers ("1. hi".data) = 1
    ∧ hasBareMarker ("1. hi".data) = true
    ∧ replaceMarker (replaceMarker "1. hi") ≠ replaceMarker "1. hi" := by
  refine ⟨by decide, by decide, by decide⟩

/-- C9: the logger appends one `fieldnames`-schema row per call, writes
the header row exactly when the store does not yet exist (two rows into a
fresh store give one header then the two data rows, in order), and a
write failure leaves the store unchanged, is reported on the diagnostic
channel only, and never raises (the model is a total function). -/
theorem claim_C9 :
    (∀ r1 r2 : InteractionRecord,
      (save_to_csv true (save_to_csv true none r1).1 r2).1
          = some [fieldnames, recCells r1, recCells r2]
      ∧ (save_to_csv true none r1).2 = false
      ∧ (save_to_csv true (save_to_csv true none r1).1 r2).2 = false)
    ∧ (∀ store rec, save_to_csv false store rec = (store, true))
    ∧ (∀ rows rec, (save_to_csv true (some rows) rec).1 = some (rows ++ [recCells rec]))
    ∧ (∀ rec, (save_to_csv true none rec).1 = some [fieldnames, recCells rec]) := by
  refine ⟨?_, ?_, ?_, ?_⟩ <;> intros <;> simp [save_to_csv]

/-- C10: every record either handler passes to the logger satisfies
`total_stars = word_stars + sentence_stars`, for all integer star inputs
(zero and negative included; no clamping). -/
theorem claim_C10 :
    (∀ raw fileOk levels apiKey responses writeOk store now,
      (get_ai_feedback raw fileOk levels apiKey responses writeOk store now).logged.all
        (fun r => decide (r.total_stars = r.word_stars + r.sentence_stars)) = true)
    ∧ (∀ raw imgResponse writeOk store now,
      (generate_image raw imgResponse writeOk store now).logged.all
        (fun r => decide (r.total_stars = r.word_stars + r.sentence_stars)) = true) := by
  constructor
  · intro raw fileOk levels apiKey responses writeOk store now
    cases raw with
    | none => rfl
    | some data =>
        cases fileOk with
        | false => rfl
        | true => simp [get_ai_feedback, Option.all]
  · intro raw imgResponse writeOk store now
    cases raw with
    | none => rfl
    | some data =>
        simp only [generate_image]
        split
        · rfl
        · simp [Option.all]

/-- C4 (amended): a handler-level exception — bad JSON (`raw = none`) or a
level-file I/O failure (`fileOk = false`) — is caught at the request
boundary and converted into an HTTP 500 carrying the fixed generic
message, leaving the store untouched; every other request is served with
HTTP 200 (the model is total, so the process never crashes).  A missing
level raises no exception and is NOT converted to a 500. -/
theorem claim_C4 (data : FeedbackRequest) (fileOk : Bool)
    (levels : List LevelDef) (apiKey : Option String)
    (responses : Nat → AttemptResult) (writeOk : Bool)
    (store : Option (List (List String))) (now : String) :
    get_ai_feedback none fileOk levels apiKey responses writeOk store now
        = ⟨500, serverErrorMsg, none, store⟩
    ∧ get_ai_feedback (some data) false levels apiKey responses writeOk store now
        = ⟨500, serverErrorMsg, none, store⟩
    ∧ (get_ai_feedback (some data) true levels apiKey responses writeOk store now).status
        = 200 := by
  refine ⟨?_, rfl, rfl⟩
  cases fileOk <;> rfl

/-- C4 counterexample: a request for level 2 when only level 1 exists —
the "missing level" case the claim lists among the exceptions converted to
HTTP 500 — is served with HTTP 200, not 500. -/
theorem claim_C4_counterexample :
    (2 : Int) ∉ [({ level := 1, answer := ["apple"] } : LevelDef)].map LevelDef.level
    ∧ (get_ai_feedback (some ⟨2, "hi", "pat", ["Dog"], 0, 1, 2⟩) true
        [{ level := 1, answer := ["apple"] }] (some "k") (fun _ => AttemptResult.exn)
        true none "t").status = 200
    ∧ (200 : Nat) ≠ 500 := by
  refine ⟨by decide, rfl, by decide⟩

/-- C5: when the requested level id has no entry in the level collection,
the feedback handler neither raises nor errors: the answer set is empty,
`correct_selected` and `missing_words` are empty, `wrong_selected` is the
whole selected list, and the request is served with HTTP 200. -/
theorem claim_C5 (data : FeedbackRequest) (levels : List LevelDef)
    (apiKey : Option String) (responses : Nat → AttemptResult)
    (writeOk : Bool) (store : Option (List (List String))) (now : String)
    (h : ∀ d ∈ levels, d.level ≠ data.level) :
    (get_ai_feedback (some data) true levels apiKey responses writeOk store now).status
        = 200
    ∧ standardAnswers levels data.level = []
    ∧ correct_selected data.correct_words (standardAnswers levels data.level) = []
    ∧ missing_words data.correct_words (standardAnswers levels data.level) = []
    ∧ wrong_selected data.correct_words (standardAnswers levels data.level)
        = data.correct_words := by
  have hfind : levels.find? (fun item => decide (item.level = data.level)) = none := by
    rw [List.find?_eq_none]
    intro x hx
    simp [h x hx]
  have hsa : standardAnswers levels data.level = [] := by
    simp [standardAnswers, hfind]
  refine ⟨rfl, hsa, ?_, ?_, ?_⟩
  · rw [hsa]
    simp [correct_selected]
  · rw [hsa]
    simp [missing_words]
  · rw [hsa]
    simp [wrong_selected]

/-- C5 witness: level 2 requested while only level 1 exists. -/
theorem claim_C5_witness :
    (∀ d ∈ [({ level := 1, answer := ["apple"] } : LevelDef)], d.level ≠ (2 : Int))
    ∧ (get_ai_feedback (some ⟨2, "hi", "pat", ["Dog"], 0, 1, 2⟩) true
        [{ level := 1, answer := ["apple"] }] (some "k") (fun _ => AttemptResult.exn)
        true none "t").status = 200
    ∧ wrong_selected ["Dog"] (standardAnswers [{ level := 1, answer := ["apple"] }] 2)
        = ["Dog"] := by
  have h : ∀ d ∈ [({ level := 1, answer := ["apple"] } : LevelDef)],
      d.level ≠ (2 : Int) := by decide
  have hc := claim_C5 ⟨2, "hi", "pat", ["Dog"], 0, 1, 2⟩
    [{ level := 1, answer := ["apple"] }] (some "k") (fun _ => AttemptResult.exn)
    true none "t" h
  exact ⟨h, hc.1, hc.2.2.2.2⟩
